import Mathlib

/-!
Verification of the `rotary_encoders` module (rotary_encoders.c / rotary_encoders.h).

The C module keeps a fixed-capacity array of encoder instance records
(`instance_arr`, capacity `ROTARY_ENCODER_INSTANCES = 4`) plus three
process-wide flag words (`rotary_encoder_cw_flags`, `rotary_encoder_ccw_flags`,
`rotary_encoder_sw_flags`).  Below, that state is embedded as the structure
`St`; each C function becomes a Lean function over `St`.  `int16_t` values are
embedded as `Int` together with `wrap16`, applied exactly where the C code can
overflow a 16-bit quantity (the `++`/`--` of `knob_value`).
-/

namespace RotaryEncoders

/-- `ROTARY_ENCODER_INSTANCES` (rotary_encoders.h). -/
def numInstances : Nat := 4

/-- `ROTARY_ENCODER_FLAG_CW` (rotary_encoders.h). -/
def ROTARY_ENCODER_FLAG_CW : Nat := 1

/-- `ROTARY_ENCODER_FLAG_CCW` (rotary_encoders.h). -/
def ROTARY_ENCODER_FLAG_CCW : Nat := 2

/-- `ROTARY_ENCODER_FLAG_SW` (rotary_encoders.h). -/
def ROTARY_ENCODER_FLAG_SW : Nat := 4

/-- Reduction of an integer into the `int16_t` range `[-32768, 32767]`,
modelling the two's-complement wraparound of a 16-bit signed quantity. -/
def wrap16 (x : Int) : Int := (x + 32768) % 65536 - 32768

/-- One record of `instance_arr` (struct `rotary_encoder`).  The C field
`switch_value` is an `int16_t` but is only ever written by logical negation
`!`, so it only takes the values 0/1 and is embedded as `Bool`. -/
structure Encoder where
  b_initialized : Bool
  knob_value : Int
  knob_max_value : Int
  knob_min_value : Int
  b_knob_allow_step_on : Bool
  b_knob_cw_rot_positive : Bool
  switch_value : Bool
  b_event_occured : Bool
  b_alert_occured : Bool
  deriving Repr, DecidableEq

/-- The all-zero record: C's static zero initialization `= {0}`. -/
def enc0 : Encoder := ⟨false, 0, 0, 0, false, false, false, false, false⟩

instance : Inhabited Encoder := ⟨enc0⟩

/-- The module's whole mutable state: `instance_arr` plus the three
volatile flag words. -/
structure St where
  instances : List Encoder
  cw_flags : Nat
  ccw_flags : Nat
  sw_flags : Nat
  deriving Repr, DecidableEq

/-- The state at program start: zeroed array, zeroed flag words. -/
def st0 : St := ⟨List.replicate numInstances enc0, 0, 0, 0⟩

/-- Well-formedness: the array has exactly `ROTARY_ENCODER_INSTANCES`
entries (in C the capacity is fixed by the declaration). -/
def St.WF (s : St) : Prop := s.instances.length = numInstances

/-- Read `instance_arr[h]` (meaningful for `h < numInstances` on a
well-formed state). -/
def getInst (s : St) (h : Nat) : Encoder := (s.instances.get? h).getD enc0

/-- Write `instance_arr[h]`. -/
def setInst (s : St) (h : Nat) (e : Encoder) : St :=
  { s with instances := s.instances.set h e }

/-- `rotary_encoder_initialized`, functional reading:
`b_status = (ROTARY_ENCODER_INSTANCES > instance_num); b_status &= instance_arr[instance_num].b_initialized;`.
Because `&` masks with the range check's result, the returned value is
`(h < capacity) && arr[h].b_initialized` whatever the out-of-range read of
`instance_arr[h]` would produce. -/
def rotary_encoder_initialized (s : St) (h : Nat) : Bool :=
  decide (h < numInstances) && ((s.instances.get? h).map Encoder.b_initialized).getD false

/-- Access-precise semantics of `rotary_encoder_initialized`: the C body
evaluates `instance_arr[instance_num].b_initialized` unconditionally (bitwise
`&=` does not short-circuit), so for an out-of-range index the function
performs an out-of-bounds array read, modelled as `none`. -/
def rotary_encoder_initialized_opt (s : St) (h : Nat) : Option Bool :=
  match s.instances.get? h with
  | none => none
  | some e => some (decide (h < numInstances) && e.b_initialized)

/-- `rotary_encoder_init`. -/
def rotary_encoder_init (s : St) (h : Nat) (min_value max_value : Int)
    (step_on cw_rot_pos : Bool) : St × Bool :=
  if h < numInstances then
    (setInst s h
      { b_initialized := true
        knob_value := 0
        knob_max_value := max_value
        knob_min_value := min_value
        b_knob_allow_step_on := step_on
        b_knob_cw_rot_positive := cw_rot_pos
        switch_value := false
        b_event_occured := false
        b_alert_occured := false }, true)
  else (s, false)

/-- `rotary_encoder_force_bounds`, as a pure function of the addressed
record.  The C code reads `knob_value`, computes `b_above_max`/`b_below_min`,
conditionally rewrites the value (sequentially: the above-max rewrite first,
then the below-min rewrite), and always stores `b_above_max || b_below_min`
into `b_alert_occured`. -/
def force_bounds (e : Encoder) : Encoder :=
  let b_above_max : Bool := decide (e.knob_max_value < e.knob_value)
  let b_below_min : Bool := decide (e.knob_value < e.knob_min_value)
  let value : Int :=
    if b_above_max || b_below_min then
      if e.b_knob_allow_step_on then
        let v1 := if b_above_max then e.knob_max_value else e.knob_value
        let v2 := if b_below_min then e.knob_min_value else v1
        v2
      else
        let v1 := if b_above_max then e.knob_min_value else e.knob_value
        let v2 := if b_below_min then e.knob_max_value else v1
        v2
    else e.knob_value
  { e with knob_value := value, b_alert_occured := b_above_max || b_below_min }

/-- Effect on `instance_arr[h]` of `rotary_encoder_set_knob_value`'s body:
store the value, then force bounds. -/
def set_enc (v : Int) (e : Encoder) : Encoder := force_bounds { e with knob_value := v }

/-- Effect of `rotary_encoder_inc_knob_value`'s body: `++knob_value`
(16-bit wraparound), then force bounds. -/
def inc_enc (e : Encoder) : Encoder :=
  force_bounds { e with knob_value := wrap16 (e.knob_value + 1) }

/-- Effect of `rotary_encoder_dec_knob_value`'s body: `--knob_value`
(16-bit wraparound), then force bounds. -/
def dec_enc (e : Encoder) : Encoder :=
  force_bounds { e with knob_value := wrap16 (e.knob_value - 1) }

/-- Effect of `rotary_encoder_tog_switch_value`'s body. -/
def tog_enc (e : Encoder) : Encoder := { e with switch_value := !e.switch_value }

/-- `rotary_encoder_get_knob_value`. -/
def rotary_encoder_get_knob_value (s : St) (h : Nat) : Int :=
  if rotary_encoder_initialized s h then (getInst s h).knob_value else 0

/-- `rotary_encoder_get_switch_value`. -/
def rotary_encoder_get_switch_value (s : St) (h : Nat) : Bool :=
  if rotary_encoder_initialized s h then (getInst s h).switch_value else false

/-- `rotary_encoder_set_knob_value`. -/
def rotary_encoder_set_knob_value (s : St) (h : Nat) (value : Int) : St × Bool :=
  if rotary_encoder_initialized s h then (setInst s h (set_enc value (getInst s h)), true)
  else (s, false)

/-- `rotary_encoder_inc_knob_value`. -/
def rotary_encoder_inc_knob_value (s : St) (h : Nat) : St × Bool :=
  if rotary_encoder_initialized s h then (setInst s h (inc_enc (getInst s h)), true)
  else (s, false)

/-- `rotary_encoder_dec_knob_value`. -/
def rotary_encoder_dec_knob_value (s : St) (h : Nat) : St × Bool :=
  if rotary_encoder_initialized s h then (setInst s h (dec_enc (getInst s h)), true)
  else (s, false)

/-- `rotary_encoder_tog_switch_value`. -/
def rotary_encoder_tog_switch_value (s : St) (h : Nat) : St × Bool :=
  if rotary_encoder_initialized s h then (setInst s h (tog_enc (getInst s h)), true)
  else (s, false)

/-- `rotary_encoder_set_flags`: three independent equality tests, each
OR-ing the instance's bit into the matching flag word. -/
def rotary_encoder_set_flags (s : St) (h : Nat) (flag : Nat) : St × Bool :=
  if rotary_encoder_initialized s h then
    let r1 : St × Bool :=
      if flag = ROTARY_ENCODER_FLAG_CW then
        ({ s with cw_flags := s.cw_flags ||| (1 <<< h) }, true)
      else (s, false)
    let r2 : St × Bool :=
      if flag = ROTARY_ENCODER_FLAG_CCW then
        ({ r1.1 with ccw_flags := r1.1.ccw_flags ||| (1 <<< h) }, true)
      else r1
    let r3 : St × Bool :=
      if flag = ROTARY_ENCODER_FLAG_SW then
        ({ r2.1 with sw_flags := r2.1.sw_flags ||| (1 <<< h) }, true)
      else r2
    r3
  else (s, false)

/-- `rotary_encoder_check_event`: read and clear `b_event_occured`. -/
def rotary_encoder_check_event (s : St) (h : Nat) : St × Bool :=
  if rotary_encoder_initialized s h then
    (setInst s h { getInst s h with b_event_occured := false }, (getInst s h).b_event_occured)
  else (s, false)

/-- `rotary_encoder_check_alert`: read and clear `b_alert_occured`. -/
def rotary_encoder_check_alert (s : St) (h : Nat) : St × Bool :=
  if rotary_encoder_initialized s h then
    (setInst s h { getInst s h with b_alert_occured := false }, (getInst s h).b_alert_occured)
  else (s, false)

/-- `(0 != ((1 << i) & tmp))`: test instance `i`'s bit in a flag word. -/
def flagBit (tmp : Nat) (i : Nat) : Bool := decide ((1 <<< i) &&& tmp ≠ 0)

/-- One iteration of `rotary_encoder_task`'s loop, for instance `i`, with
the snapshotted flag words `tcw`, `tccw`, `tsw`.  The body calls the public
increment/decrement/toggle functions, exactly as the C code does. -/
def taskBody (tcw tccw tsw : Nat) (i : Nat) (s : St) : St :=
  let b_increment := flagBit tcw i
  let b_decrement := flagBit tccw i
  let b_switch := flagBit tsw i
  let b_event := b_increment || b_decrement || b_switch
  if b_event && rotary_encoder_initialized s i then
    let b_tmp_cw_pos := (getInst s i).b_knob_cw_rot_positive
    let s1 :=
      if b_increment then
        (if b_tmp_cw_pos then rotary_encoder_inc_knob_value s i
         else rotary_encoder_dec_knob_value s i).1
      else s
    let s2 :=
      if b_decrement then
        (if b_tmp_cw_pos then rotary_encoder_dec_knob_value s1 i
         else rotary_encoder_inc_knob_value s1 i).1
      else s1
    let s3 := if b_switch then (rotary_encoder_tog_switch_value s2 i).1 else s2
    setInst s3 i { getInst s3 i with b_event_occured := true }
  else s

/-- `rotary_encoder_task`: snapshot the three flag words, blindly zero them,
then loop over all instances applying the pending effects. -/
def rotary_encoder_task (s : St) : St :=
  let tcw := s.cw_flags
  let tccw := s.ccw_flags
  let tsw := s.sw_flags
  let s1 : St := { s with cw_flags := 0, ccw_flags := 0, sw_flags := 0 }
  (List.range numInstances).foldl (fun t i => taskBody tcw tccw tsw i t) s1

/-- Pure per-record summary of one `rotary_encoder_task` loop iteration:
what happens to `instance_arr[i]` given its three snapshot bits.  Proved
below (`task_getInst`) to coincide with the state-level loop. -/
def taskStep (bcw bccw bsw : Bool) (e : Encoder) : Encoder :=
  if (bcw || bccw || bsw) && e.b_initialized then
    let p := e.b_knob_cw_rot_positive
    let e1 := if bcw then (if p then inc_enc e else dec_enc e) else e
    let e2 := if bccw then (if p then dec_enc e1 else inc_enc e1) else e1
    let e3 := if bsw then tog_enc e2 else e2
    { e3 with b_event_occured := true }
  else e


/-! ### Micro-step model of the drain for the concurrency analysis

`rotary_encoder_task` begins with three volatile reads of the flag words
followed by three blind zero-assignments (lines 273-279 of the C file).  A
producer (`rotary_encoder_set_flags` from interrupt context) can run between
any two of those six micro-steps.  The model below replays those six steps
with one producer signal interleaved just before micro-step `p`
(`p = 6`: after all six; the loop that follows only uses the snapshot, so
later interleaving points are equivalent to `p = 6`). -/

/-- The three producer signal kinds. -/
inductive SigKind
  | rotCW
  | rotCCW
  | press
  deriving DecidableEq, Repr

/-- The three process-wide flag words of the module. -/
structure Flags where
  cw : Nat
  ccw : Nat
  sw : Nat
  deriving DecidableEq, Repr

/-- The flag word a signal kind belongs to. -/
def Flags.word (f : Flags) : SigKind → Nat
  | SigKind.rotCW => f.cw
  | SigKind.rotCCW => f.ccw
  | SigKind.press => f.sw

/-- Producer effect of `rotary_encoder_set_flags` on the flag words: OR the
instance's bit into the word of the signalled kind. -/
def signalFlags (k : SigKind) (h : Nat) (f : Flags) : Flags :=
  match k with
  | SigKind.rotCW => { f with cw := f.cw ||| (1 <<< h) }
  | SigKind.rotCCW => { f with ccw := f.ccw ||| (1 <<< h) }
  | SigKind.press => { f with sw := f.sw ||| (1 <<< h) }

/-- The consumer's local copies `tmp_cw_flags`, `tmp_ccw_flags`,
`tmp_sw_flags`. -/
structure Snapshot where
  tcw : Nat
  tccw : Nat
  tsw : Nat
  deriving DecidableEq, Repr

/-- The snapshot word a signal kind is processed from. -/
def Snapshot.word (t : Snapshot) : SigKind → Nat
  | SigKind.rotCW => t.tcw
  | SigKind.rotCCW => t.tccw
  | SigKind.press => t.tsw

/-- The six read/clear micro-steps of `rotary_encoder_task` with one
producer `signal(h, k)` interleaved just before micro-step `p`.  Returns the
snapshot the drain processes and the flag state left for the next drain. -/
def drainWithSignal (p : Nat) (k : SigKind) (h : Nat) (f0 : Flags) :
    Snapshot × Flags :=
  let f1 := if p = 0 then signalFlags k h f0 else f0
  let tcw := f1.cw
  let f2 := if p = 1 then signalFlags k h f1 else f1
  let tccw := f2.ccw
  let f3 := if p = 2 then signalFlags k h f2 else f2
  let tsw := f3.sw
  let f4 := if p = 3 then signalFlags k h f3 else f3
  let f5 : Flags := { f4 with cw := 0 }
  let f6 := if p = 4 then signalFlags k h f5 else f5
  let f7 : Flags := { f6 with ccw := 0 }
  let f8 := if p = 5 then signalFlags k h f7 else f7
  let f9 : Flags := { f8 with sw := 0 }
  let f10 := if p = 6 then signalFlags k h f9 else f9
  (⟨tcw, tccw, tsw⟩, f10)

/-- The interleaved signal is lost: its bit is neither in the snapshot (so
this drain does not process it) nor in the remaining flag word (so no later
drain will see it). -/
def signalLost (p : Nat) (k : SigKind) (h : Nat) (f0 : Flags) : Bool :=
  !flagBit ((drainWithSignal p k h f0).1.word k) h &&
    !flagBit ((drainWithSignal p k h f0).2.word k) h

/-- Index of the micro-step that reads (snapshots) a kind's flag word. -/
def readIdx : SigKind → Nat
  | SigKind.rotCW => 0
  | SigKind.rotCCW => 1
  | SigKind.press => 2

/-- Index of the micro-step that zeroes a kind's flag word. -/
def clearIdx : SigKind → Nat
  | SigKind.rotCW => 3
  | SigKind.rotCCW => 4
  | SigKind.press => 5

/-! ### Concrete scenario states -/

/-- `init(0, min 0, max 10, clamp, cw-positive)` from the start state. -/
def demo_init_state : St := (rotary_encoder_init st0 0 0 10 true true).1

/-- `demo_init_state` with the instance-0 clockwise bit signalled. -/
def demo_cw_state : St :=
  (rotary_encoder_set_flags demo_init_state 0 ROTARY_ENCODER_FLAG_CW).1

/-- `demo_cw_state` with the instance-0 counter-clockwise bit also
signalled. -/
def demo_both_state : St :=
  (rotary_encoder_set_flags demo_cw_state 0 ROTARY_ENCODER_FLAG_CCW).1

/-- The C1 scenario exactly as the spec states it: twelve `signal(0, cw)`
calls, then one `run_pending()`. -/
def c1_state : St :=
  rotary_encoder_task
    ((fun s => (rotary_encoder_set_flags s 0 ROTARY_ENCODER_FLAG_CW).1)^[12]
      demo_init_state)

/-- The C1 scenario with a `run_pending()` after each of the twelve
signals. -/
def c1_amended_state : St :=
  (fun s => rotary_encoder_task (rotary_encoder_set_flags s 0 ROTARY_ENCODER_FLAG_CW).1)^[12]
    demo_init_state

/-- `demo_init_state` after the direct mutation `set_knob(0, 5)`. -/
def c3_state : St := (rotary_encoder_set_knob_value demo_init_state 0 5).1

/-- `init(0, min 0, max 32767, wrap, cw-positive)`, then `set_knob(0, 32767)`:
the knob sits exactly at the maximum. -/
def c6_pre_state : St :=
  (rotary_encoder_set_knob_value
    (rotary_encoder_init st0 0 0 32767 false true).1 0 32767).1

/-- `c6_pre_state` after one `increment_knob(0)`. -/
def c6_state : St := (rotary_encoder_inc_knob_value c6_pre_state 0).1

/-! ### Basic state lemmas -/

@[simp] theorem cw_flags_setInst (s : St) (h : Nat) (e : Encoder) :
    (setInst s h e).cw_flags = s.cw_flags := rfl

@[simp] theorem ccw_flags_setInst (s : St) (h : Nat) (e : Encoder) :
    (setInst s h e).ccw_flags = s.ccw_flags := rfl

@[simp] theorem sw_flags_setInst (s : St) (h : Nat) (e : Encoder) :
    (setInst s h e).sw_flags = s.sw_flags := rfl

@[simp] theorem length_setInst (s : St) (h : Nat) (e : Encoder) :
    (setInst s h e).instances.length = s.instances.length := by
  simp [setInst]

theorem WF_setInst {s : St} (hWF : s.WF) (h : Nat) (e : Encoder) : (setInst s h e).WF := by
  simpa [St.WF] using hWF

theorem get?_eq_getInst {s : St} (hWF : s.WF) {h : Nat} (hh : h < numInstances) :
    s.instances.get? h = some (getInst s h) := by
  have hlen : h < s.instances.length := by rw [hWF]; exact hh
  simp [getInst, List.getElem?_eq_getElem hlen]

theorem getInst_setInst_self {s : St} (hWF : s.WF) {h : Nat} (hh : h < numInstances)
    (e : Encoder) : getInst (setInst s h e) h = e := by
  have hlen : h < s.instances.length := by rw [hWF]; exact hh
  simp [getInst, setInst, List.getElem?_set_eq_of_lt _ hlen]

theorem getInst_setInst_ne (s : St) {h j : Nat} (hne : h ≠ j) (e : Encoder) :
    getInst (setInst s h e) j = getInst s j := by
  simp [getInst, setInst, List.getElem?_set_ne hne]

theorem initialized_eq {s : St} (hWF : s.WF) {h : Nat} (hh : h < numInstances) :
    rotary_encoder_initialized s h = (getInst s h).b_initialized := by
  have hlen : h < s.instances.length := by rw [hWF]; exact hh
  simp [rotary_encoder_initialized, List.getElem?_eq_getElem hlen, getInst, hh]

theorem initialized_out_of_range (s : St) {h : Nat} (hh : numInstances ≤ h) :
    rotary_encoder_initialized s h = false := by
  simp [rotary_encoder_initialized, Nat.not_lt.mpr hh]

theorem initialized_setInst_self {s : St} (hWF : s.WF) {h : Nat} (hh : h < numInstances)
    (e : Encoder) : rotary_encoder_initialized (setInst s h e) h = e.b_initialized := by
  rw [initialized_eq (WF_setInst hWF h e) hh, getInst_setInst_self hWF hh]

/-! ### wrap16 lemmas -/

theorem wrap16_bounds (x : Int) : -32768 ≤ wrap16 x ∧ wrap16 x ≤ 32767 := by
  have h1 : 0 ≤ (x + 32768) % 65536 := Int.emod_nonneg _ (by norm_num)
  have h2 : (x + 32768) % 65536 < 65536 := Int.emod_lt_of_pos _ (by norm_num)
  unfold wrap16
  omega

theorem wrap16_eq_self {x : Int} (h1 : -32768 ≤ x) (h2 : x ≤ 32767) : wrap16 x = x := by
  unfold wrap16
  rw [Int.emod_eq_of_lt (by omega) (by omega)]
  omega

/-! ### force_bounds field lemmas -/

@[simp] theorem force_bounds_b_initialized (e : Encoder) :
    (force_bounds e).b_initialized = e.b_initialized := rfl

@[simp] theorem force_bounds_knob_max (e : Encoder) :
    (force_bounds e).knob_max_value = e.knob_max_value := rfl

@[simp] theorem force_bounds_knob_min (e : Encoder) :
    (force_bounds e).knob_min_value = e.knob_min_value := rfl

@[simp] theorem force_bounds_step_on (e : Encoder) :
    (force_bounds e).b_knob_allow_step_on = e.b_knob_allow_step_on := rfl

@[simp] theorem force_bounds_cw_pos (e : Encoder) :
    (force_bounds e).b_knob_cw_rot_positive = e.b_knob_cw_rot_positive := rfl

@[simp] theorem force_bounds_switch (e : Encoder) :
    (force_bounds e).switch_value = e.switch_value := rfl

@[simp] theorem force_bounds_event (e : Encoder) :
    (force_bounds e).b_event_occured = e.b_event_occured := rfl

theorem force_bounds_alert (e : Encoder) :
    (force_bounds e).b_alert_occured =
      (decide (e.knob_max_value < e.knob_value) || decide (e.knob_value < e.knob_min_value)) :=
  rfl

/-- Core bounds-policy fact: whatever the incoming value, `force_bounds`
leaves the knob inside `[knob_min_value, knob_max_value]`, provided the
bounds are ordered. -/
theorem force_bounds_mem {e : Encoder} (hmm : e.knob_min_value ≤ e.knob_max_value) :
    e.knob_min_value ≤ (force_bounds e).knob_value ∧
      (force_bounds e).knob_value ≤ e.knob_max_value := by
  simp only [force_bounds]
  split_ifs <;> simp_all


theorem setInst_getInst_self {s : St} {h : Nat} (hlen : h < s.instances.length) :
    setInst s h (getInst s h) = s := by
  have h1 : s.instances.set h (getInst s h) = s.instances := by
    have hg : getInst s h = s.instances[h] := by
      simp [getInst, List.getElem?_eq_getElem hlen]
    rw [hg]
    apply List.ext_getElem
    · simp
    · intro n hn hn2
      by_cases hni : n = h
      · subst hni; simp [List.getElem_set]
      · simp [List.getElem_set, hni]
        intro hhn
        exact absurd hhn.symm hni
  simp [setInst, h1]

theorem setInst_setInst (s : St) (h : Nat) (a b : Encoder) :
    setInst (setInst s h a) h b = setInst s h b := by
  simp [setInst, List.set_set]

theorem getInst_setInst_self' {s : St} {h : Nat} (hlen : h < s.instances.length)
    (e : Encoder) : getInst (setInst s h e) h = e := by
  simp [getInst, setInst, List.getElem?_set_eq_of_lt _ hlen]

theorem initialized_eq' {s : St} {h : Nat} (hh : h < numInstances)
    (hlen : h < s.instances.length) :
    rotary_encoder_initialized s h = (getInst s h).b_initialized := by
  simp [rotary_encoder_initialized, List.getElem?_eq_getElem hlen, getInst, hh]

@[simp] theorem set_enc_b_initialized (v : Int) (e : Encoder) :
    (set_enc v e).b_initialized = e.b_initialized := rfl

@[simp] theorem inc_enc_b_initialized (e : Encoder) :
    (inc_enc e).b_initialized = e.b_initialized := rfl

@[simp] theorem dec_enc_b_initialized (e : Encoder) :
    (dec_enc e).b_initialized = e.b_initialized := rfl

@[simp] theorem tog_enc_b_initialized (e : Encoder) :
    (tog_enc e).b_initialized = e.b_initialized := rfl

theorem taskBody_eq {s : St} {i : Nat} (hi : i < numInstances)
    (hlen : i < s.instances.length) (tcw tccw tsw : Nat) :
    taskBody tcw tccw tsw i s =
      setInst s i (taskStep (flagBit tcw i) (flagBit tccw i) (flagBit tsw i) (getInst s i)) := by
  simp only [taskBody, taskStep]
  rw [initialized_eq' hi hlen]
  split_ifs <;>
    simp_all [rotary_encoder_inc_knob_value, rotary_encoder_dec_knob_value,
      rotary_encoder_tog_switch_value, initialized_eq' hi, getInst_setInst_self',
      setInst_setInst, setInst_getInst_self, hlen]


@[simp] theorem length_set_knob (s : St) (h : Nat) (v : Int) :
    (rotary_encoder_set_knob_value s h v).1.instances.length = s.instances.length := by
  unfold rotary_encoder_set_knob_value; split <;> simp

@[simp] theorem length_inc_knob (s : St) (h : Nat) :
    (rotary_encoder_inc_knob_value s h).1.instances.length = s.instances.length := by
  unfold rotary_encoder_inc_knob_value; split <;> simp

@[simp] theorem length_dec_knob (s : St) (h : Nat) :
    (rotary_encoder_dec_knob_value s h).1.instances.length = s.instances.length := by
  unfold rotary_encoder_dec_knob_value; split <;> simp

@[simp] theorem length_tog_switch (s : St) (h : Nat) :
    (rotary_encoder_tog_switch_value s h).1.instances.length = s.instances.length := by
  unfold rotary_encoder_tog_switch_value; split <;> simp

@[simp] theorem cw_flags_inc_knob (s : St) (h : Nat) :
    (rotary_encoder_inc_knob_value s h).1.cw_flags = s.cw_flags := by
  unfold rotary_encoder_inc_knob_value; split <;> rfl

@[simp] theorem ccw_flags_inc_knob (s : St) (h : Nat) :
    (rotary_encoder_inc_knob_value s h).1.ccw_flags = s.ccw_flags := by
  unfold rotary_encoder_inc_knob_value; split <;> rfl

@[simp] theorem sw_flags_inc_knob (s : St) (h : Nat) :
    (rotary_encoder_inc_knob_value s h).1.sw_flags = s.sw_flags := by
  unfold rotary_encoder_inc_knob_value; split <;> rfl

@[simp] theorem cw_flags_dec_knob (s : St) (h : Nat) :
    (rotary_encoder_dec_knob_value s h).1.cw_flags = s.cw_flags := by
  unfold rotary_encoder_dec_knob_value; split <;> rfl

@[simp] theorem ccw_flags_dec_knob (s : St) (h : Nat) :
    (rotary_encoder_dec_knob_value s h).1.ccw_flags = s.ccw_flags := by
  unfold rotary_encoder_dec_knob_value; split <;> rfl

@[simp] theorem sw_flags_dec_knob (s : St) (h : Nat) :
    (rotary_encoder_dec_knob_value s h).1.sw_flags = s.sw_flags := by
  unfold rotary_encoder_dec_knob_value; split <;> rfl

@[simp] theorem cw_flags_tog_switch (s : St) (h : Nat) :
    (rotary_encoder_tog_switch_value s h).1.cw_flags = s.cw_flags := by
  unfold rotary_encoder_tog_switch_value; split <;> rfl

@[simp] theorem ccw_flags_tog_switch (s : St) (h : Nat) :
    (rotary_encoder_tog_switch_value s h).1.ccw_flags = s.ccw_flags := by
  unfold rotary_encoder_tog_switch_value; split <;> rfl

@[simp] theorem sw_flags_tog_switch (s : St) (h : Nat) :
    (rotary_encoder_tog_switch_value s h).1.sw_flags = s.sw_flags := by
  unfold rotary_encoder_tog_switch_value; split <;> rfl

theorem length_taskBody (tcw tccw tsw : Nat) (i : Nat) (s : St) :
    (taskBody tcw tccw tsw i s).instances.length = s.instances.length := by
  simp only [taskBody]; split_ifs <;> simp

theorem flags_taskBody (tcw tccw tsw : Nat) (i : Nat) (s : St) :
    (taskBody tcw tccw tsw i s).cw_flags = s.cw_flags ∧
      (taskBody tcw tccw tsw i s).ccw_flags = s.ccw_flags ∧
      (taskBody tcw tccw tsw i s).sw_flags = s.sw_flags := by
  simp only [taskBody]; split_ifs <;> simp

theorem foldl_taskBody_getInst (tcw tccw tsw : Nat) :
    ∀ (l : List Nat) (s : St), s.WF → (∀ i ∈ l, i < numInstances) → l.Nodup →
      ∀ (j : Nat),
        getInst (l.foldl (fun t i => taskBody tcw tccw tsw i t) s) j =
          if j ∈ l then
            taskStep (flagBit tcw j) (flagBit tccw j) (flagBit tsw j) (getInst s j)
          else getInst s j
  | [], s, _, _, _, j => by simp
  | a :: l, s, hWF, hmem, hnd, j => by
    have ha : a < numInstances := hmem a (List.mem_cons_self a l)
    have hlen : a < s.instances.length := by rw [hWF]; exact ha
    have hbody := taskBody_eq ha hlen tcw tccw tsw
    have hWF2 : (taskBody tcw tccw tsw a s).WF := by
      show (taskBody tcw tccw tsw a s).instances.length = numInstances
      rw [length_taskBody]; exact hWF
    rcases List.nodup_cons.mp hnd with ⟨hna, hndl⟩
    rw [List.foldl_cons,
      foldl_taskBody_getInst tcw tccw tsw l _ hWF2
        (fun i hi => hmem i (List.mem_cons_of_mem a hi)) hndl j]
    by_cases hjl : j ∈ l
    · have hja : j ≠ a := fun hja => hna (hja ▸ hjl)
      rw [if_pos hjl, if_pos (List.mem_cons_of_mem a hjl), hbody,
        getInst_setInst_ne _ (Ne.symm hja)]
    · by_cases hja : j = a
      · subst hja
        rw [if_neg hjl, if_pos (List.mem_cons_self j l), hbody,
          getInst_setInst_self' hlen]
      · rw [if_neg hjl, if_neg (by simp [hja, hjl]), hbody,
          getInst_setInst_ne _ (fun hh => hja hh.symm)]

theorem foldl_taskBody_length (tcw tccw tsw : Nat) :
    ∀ (l : List Nat) (s : St),
      (l.foldl (fun t i => taskBody tcw tccw tsw i t) s).instances.length =
        s.instances.length
  | [], s => rfl
  | a :: l, s => by
    rw [List.foldl_cons, foldl_taskBody_length tcw tccw tsw l _, length_taskBody]

theorem foldl_taskBody_flags (tcw tccw tsw : Nat) :
    ∀ (l : List Nat) (s : St),
      (l.foldl (fun t i => taskBody tcw tccw tsw i t) s).cw_flags = s.cw_flags ∧
        (l.foldl (fun t i => taskBody tcw tccw tsw i t) s).ccw_flags = s.ccw_flags ∧
        (l.foldl (fun t i => taskBody tcw tccw tsw i t) s).sw_flags = s.sw_flags
  | [], s => ⟨rfl, rfl, rfl⟩
  | a :: l, s => by
    rw [List.foldl_cons]
    rcases foldl_taskBody_flags tcw tccw tsw l (taskBody tcw tccw tsw a s) with ⟨h1, h2, h3⟩
    rcases flags_taskBody tcw tccw tsw a s with ⟨g1, g2, g3⟩
    exact ⟨h1.trans g1, h2.trans g2, h3.trans g3⟩

theorem getInst_task {s : St} (hWF : s.WF) {h : Nat} (hh : h < numInstances) :
    getInst (rotary_encoder_task s) h =
      taskStep (flagBit s.cw_flags h) (flagBit s.ccw_flags h) (flagBit s.sw_flags h)
        (getInst s h) := by
  have hWF0 : St.WF { s with cw_flags := 0, ccw_flags := 0, sw_flags := 0 } := hWF
  simp only [rotary_encoder_task]
  rw [foldl_taskBody_getInst _ _ _ _ _ hWF0 (fun i hi => List.mem_range.mp hi)
    (List.nodup_range _) h, if_pos (List.mem_range.mpr hh)]
  rfl

theorem task_WF {s : St} (hWF : s.WF) : (rotary_encoder_task s).WF := by
  show (rotary_encoder_task s).instances.length = numInstances
  simp only [rotary_encoder_task]
  rw [foldl_taskBody_length]
  exact hWF

theorem task_flags (s : St) :
    (rotary_encoder_task s).cw_flags = 0 ∧ (rotary_encoder_task s).ccw_flags = 0 ∧
      (rotary_encoder_task s).sw_flags = 0 := by
  simp only [rotary_encoder_task]
  exact foldl_taskBody_flags _ _ _ _ _


/-! ### taskStep field lemmas -/

@[simp] theorem taskStep_b_initialized (bcw bccw bsw : Bool) (e : Encoder) :
    (taskStep bcw bccw bsw e).b_initialized = e.b_initialized := by
  cases bcw <;> cases bccw <;> cases bsw <;>
    cases hp : e.b_knob_cw_rot_positive <;> cases hin : e.b_initialized <;>
      simp [taskStep, hp, hin]

theorem taskStep_event_true {bcw bccw bsw : Bool} {e : Encoder}
    (hb : (bcw || bccw || bsw) = true) (hin : e.b_initialized = true) :
    (taskStep bcw bccw bsw e).b_event_occured = true := by
  simp [taskStep, hb, hin]

theorem taskStep_id {bcw bccw bsw : Bool} {e : Encoder}
    (h : ¬((bcw || bccw || bsw) && e.b_initialized) = true) :
    taskStep bcw bccw bsw e = e := by
  simp only [taskStep]
  rw [if_neg h]

/-! ### set_flags lemmas -/

theorem set_flags_cw {s : St} {h : Nat} (hI : rotary_encoder_initialized s h = true) :
    rotary_encoder_set_flags s h ROTARY_ENCODER_FLAG_CW =
      ({ s with cw_flags := s.cw_flags ||| (1 <<< h) }, true) := by
  simp [rotary_encoder_set_flags, hI, ROTARY_ENCODER_FLAG_CW, ROTARY_ENCODER_FLAG_CCW,
    ROTARY_ENCODER_FLAG_SW]

theorem initialized_cw_or {s : St} (h : Nat) (w : Nat) :
    rotary_encoder_initialized { s with cw_flags := w } h =
      rotary_encoder_initialized s h := rfl

/-- Setting the clockwise flag of an initialized instance twice is the same
as setting it once: the producer path is an idempotent OR. -/
theorem set_flags_cw_idem {s : St} {h : Nat}
    (hI : rotary_encoder_initialized s h = true) :
    (rotary_encoder_set_flags
        (rotary_encoder_set_flags s h ROTARY_ENCODER_FLAG_CW).1 h
        ROTARY_ENCODER_FLAG_CW).1 =
      (rotary_encoder_set_flags s h ROTARY_ENCODER_FLAG_CW).1 := by
  rw [set_flags_cw hI]
  rw [set_flags_cw (by rw [initialized_cw_or]; exact hI)]
  simp [Nat.or_assoc]


/-! ### Per-effect field lemmas -/

@[simp] theorem set_enc_knob_min (v : Int) (e : Encoder) :
    (set_enc v e).knob_min_value = e.knob_min_value := rfl

@[simp] theorem set_enc_knob_max (v : Int) (e : Encoder) :
    (set_enc v e).knob_max_value = e.knob_max_value := rfl

@[simp] theorem set_enc_event (v : Int) (e : Encoder) :
    (set_enc v e).b_event_occured = e.b_event_occured := rfl

@[simp] theorem inc_enc_knob_min (e : Encoder) :
    (inc_enc e).knob_min_value = e.knob_min_value := rfl

@[simp] theorem inc_enc_knob_max (e : Encoder) :
    (inc_enc e).knob_max_value = e.knob_max_value := rfl

@[simp] theorem inc_enc_event (e : Encoder) :
    (inc_enc e).b_event_occured = e.b_event_occured := rfl

@[simp] theorem dec_enc_knob_min (e : Encoder) :
    (dec_enc e).knob_min_value = e.knob_min_value := rfl

@[simp] theorem dec_enc_knob_max (e : Encoder) :
    (dec_enc e).knob_max_value = e.knob_max_value := rfl

@[simp] theorem dec_enc_event (e : Encoder) :
    (dec_enc e).b_event_occured = e.b_event_occured := rfl

@[simp] theorem tog_enc_knob_min (e : Encoder) :
    (tog_enc e).knob_min_value = e.knob_min_value := rfl

@[simp] theorem tog_enc_knob_max (e : Encoder) :
    (tog_enc e).knob_max_value = e.knob_max_value := rfl

@[simp] theorem tog_enc_knob (e : Encoder) :
    (tog_enc e).knob_value = e.knob_value := rfl

@[simp] theorem tog_enc_event (e : Encoder) :
    (tog_enc e).b_event_occured = e.b_event_occured := rfl

@[simp] theorem set_enc_switch (v : Int) (e : Encoder) :
    (set_enc v e).switch_value = e.switch_value := rfl

@[simp] theorem inc_enc_switch (e : Encoder) :
    (inc_enc e).switch_value = e.switch_value := rfl

@[simp] theorem dec_enc_switch (e : Encoder) :
    (dec_enc e).switch_value = e.switch_value := rfl

@[simp] theorem set_enc_step_on (v : Int) (e : Encoder) :
    (set_enc v e).b_knob_allow_step_on = e.b_knob_allow_step_on := rfl

@[simp] theorem inc_enc_step_on (e : Encoder) :
    (inc_enc e).b_knob_allow_step_on = e.b_knob_allow_step_on := rfl

@[simp] theorem dec_enc_step_on (e : Encoder) :
    (dec_enc e).b_knob_allow_step_on = e.b_knob_allow_step_on := rfl

@[simp] theorem tog_enc_step_on (e : Encoder) :
    (tog_enc e).b_knob_allow_step_on = e.b_knob_allow_step_on := rfl

@[simp] theorem set_enc_cw_pos (v : Int) (e : Encoder) :
    (set_enc v e).b_knob_cw_rot_positive = e.b_knob_cw_rot_positive := rfl

@[simp] theorem inc_enc_cw_pos (e : Encoder) :
    (inc_enc e).b_knob_cw_rot_positive = e.b_knob_cw_rot_positive := rfl

@[simp] theorem dec_enc_cw_pos (e : Encoder) :
    (dec_enc e).b_knob_cw_rot_positive = e.b_knob_cw_rot_positive := rfl

@[simp] theorem tog_enc_cw_pos (e : Encoder) :
    (tog_enc e).b_knob_cw_rot_positive = e.b_knob_cw_rot_positive := rfl

@[simp] theorem getInst_with_cw_flags (s : St) (w : Nat) (h : Nat) :
    getInst { s with cw_flags := w } h = getInst s h := rfl

theorem set_enc_mem {e : Encoder} (v : Int)
    (hmm : e.knob_min_value ≤ e.knob_max_value) :
    e.knob_min_value ≤ (set_enc v e).knob_value ∧
      (set_enc v e).knob_value ≤ e.knob_max_value :=
  force_bounds_mem hmm

theorem inc_enc_mem {e : Encoder} (hmm : e.knob_min_value ≤ e.knob_max_value) :
    e.knob_min_value ≤ (inc_enc e).knob_value ∧
      (inc_enc e).knob_value ≤ e.knob_max_value :=
  force_bounds_mem hmm

theorem dec_enc_mem {e : Encoder} (hmm : e.knob_min_value ≤ e.knob_max_value) :
    e.knob_min_value ≤ (dec_enc e).knob_value ∧
      (dec_enc e).knob_value ≤ e.knob_max_value :=
  force_bounds_mem hmm

/-- If the drained bits include a rotation (cw or ccw) for an initialized
record with ordered bounds, the record's knob ends inside the bounds: the
last applied rotation runs `force_bounds`. -/
theorem taskStep_knob_mem {bcw bccw bsw : Bool} {e : Encoder}
    (hrot : (bcw || bccw) = true) (hin : e.b_initialized = true)
    (hmm : e.knob_min_value ≤ e.knob_max_value) :
    e.knob_min_value ≤ (taskStep bcw bccw bsw e).knob_value ∧
      (taskStep bcw bccw bsw e).knob_value ≤ e.knob_max_value := by
  have hguard : ((bcw || bccw || bsw) && e.b_initialized) = true := by
    cases bcw <;> cases bccw <;> simp_all
  simp only [taskStep, if_pos hguard]
  cases hccw : bccw
  · have hbcw : bcw = true := by cases bcw <;> simp_all
    cases hp : e.b_knob_cw_rot_positive <;>
      simp [hbcw, hp, apply_ite Encoder.knob_value] <;>
        [exact dec_enc_mem hmm; exact inc_enc_mem hmm]
  · cases hp : e.b_knob_cw_rot_positive <;> cases hbcw : bcw <;>
      simp [hp, hbcw, apply_ite Encoder.knob_value]
    · exact inc_enc_mem hmm
    · have h1 := inc_enc_mem (e := dec_enc e) (by simpa using hmm)
      simpa using h1
    · exact dec_enc_mem hmm
    · have h1 := dec_enc_mem (e := inc_enc e) (by simpa using hmm)
      simpa using h1

/-! ### flagBit lemmas -/

@[simp] theorem flagBit_zero (h : Nat) : flagBit 0 h = false := by
  simp [flagBit]

theorem flagBit_or_self (w : Nat) (h : Nat) : flagBit (w ||| (1 <<< h)) h = true := by
  simp only [flagBit, decide_eq_true_eq]
  intro hz
  have ht : ((1 <<< h) &&& (w ||| (1 <<< h))).testBit h = false := by
    rw [hz]; exact Nat.zero_testBit h
  rw [Nat.testBit_and, Nat.testBit_or, Nat.one_shiftLeft, Nat.testBit_two_pow_self] at ht
  simp at ht

theorem flagBit_shiftLeft_self (h : Nat) : flagBit (1 <<< h) h = true := by
  have h1 := flagBit_or_self 0 h
  simpa using h1


/-! ### Claim theorems -/

set_option maxRecDepth 16000

/-- C1 (counterexample): the scenario as stated fails on the code.  Twelve
`signal(0, rotate-cw)` calls with no intervening drain coalesce into one
pending bit, so the single `run_pending()` applies exactly one increment:
`get_knob(0)` is 1 (not 10) and `check_alert(0)` is false (not true);
`check_event(0)` is true. -/
theorem c1_counterexample :
    rotary_encoder_get_knob_value c1_state 0 = 1 ∧
      ¬rotary_encoder_get_knob_value c1_state 0 = 10 ∧
      (rotary_encoder_check_alert c1_state 0).2 = false ∧
      (rotary_encoder_check_event (rotary_encoder_check_alert c1_state 0).1 0).2 = true := by
  decide

/-- C1 (amended): starting from `init(0, min=0, max=10, clamp_at_limit=true,
cw_is_positive=true)`, twelve rounds of `signal(0, rotate-cw)` each followed
by a `run_pending()` leave `get_knob(0) = 10`, and then `check_alert(0)`
returns true and `check_event(0)` returns true. -/
theorem c1_amended_scenario :
    rotary_encoder_get_knob_value c1_amended_state 0 = 10 ∧
      (rotary_encoder_check_alert c1_amended_state 0).2 = true ∧
      (rotary_encoder_check_event (rotary_encoder_check_alert c1_amended_state 0).1 0).2 = true := by
  decide

/-- C3 (counterexample): handle 0 is initialized and the direct mutation
`set_knob(0, 5)` succeeded, yet the first `check_event(0)` afterwards returns
false: the direct mutators do not set the event latch. -/
theorem c3_counterexample :
    rotary_encoder_initialized c3_state 0 = true ∧
      (rotary_encoder_set_knob_value demo_init_state 0 5).2 = true ∧
      (rotary_encoder_check_event c3_state 0).2 = false := by
  decide

/-- C6 (counterexample): with wrap policy, `min = 0`, `max = 32767`, and the
knob at `max`, an `increment_knob` does not yield `min`: the 16-bit value
wraps to -32768, trips the below-min check, and the wrap branch puts the
value back at `max` (32767), not at `min` (0). -/
theorem c6_counterexample :
    (getInst c6_pre_state 0).knob_value = (getInst c6_pre_state 0).knob_max_value ∧
      (getInst c6_pre_state 0).b_knob_allow_step_on = false ∧
      rotary_encoder_get_knob_value c6_state 0 = 32767 ∧
      ¬rotary_encoder_get_knob_value c6_state 0 = 0 := by
  decide

/-- C9 (counterexample): a clockwise signal that lands between the
consumer's read of `rotary_encoder_cw_flags` and the blind zero-assignment
is lost: it is neither in the drained snapshot nor in the flag word left for
the next drain. -/
theorem c9_counterexample :
    signalLost 1 SigKind.rotCW 0 ⟨0, 0, 0⟩ = true := by
  decide


/-- C2 (code-bug evidence): for any handle the initialized check reports
invalid (out of range or never initialized), every accessor returns the
documented default, every mutator fails and returns the state unchanged;
but for an out-of-range handle the failed range check is still followed by
the indexed read: `rotary_encoder_initialized` evaluates
`instance_arr[instance_num].b_initialized` unconditionally (bitwise `&=`
does not short-circuit), an out-of-bounds access (`none` in the
access-precise semantics). -/
theorem c2_invalid_handle (s : St) (h : Nat) (v : Int) (flag : Nat)
    (hin : rotary_encoder_initialized s h = false) :
    rotary_encoder_get_knob_value s h = 0 ∧
      rotary_encoder_get_switch_value s h = false ∧
      rotary_encoder_check_event s h = (s, false) ∧
      rotary_encoder_check_alert s h = (s, false) ∧
      rotary_encoder_set_knob_value s h v = (s, false) ∧
      rotary_encoder_inc_knob_value s h = (s, false) ∧
      rotary_encoder_dec_knob_value s h = (s, false) ∧
      rotary_encoder_tog_switch_value s h = (s, false) ∧
      rotary_encoder_set_flags s h flag = (s, false) ∧
      (s.instances.length ≤ h → rotary_encoder_initialized_opt s h = none) := by
  refine ⟨?_, ?_, ?_, ?_, ?_, ?_, ?_, ?_, ?_, ?_⟩
  · simp [rotary_encoder_get_knob_value, hin]
  · simp [rotary_encoder_get_switch_value, hin]
  · simp [rotary_encoder_check_event, hin]
  · simp [rotary_encoder_check_alert, hin]
  · simp [rotary_encoder_set_knob_value, hin]
  · simp [rotary_encoder_inc_knob_value, hin]
  · simp [rotary_encoder_dec_knob_value, hin]
  · simp [rotary_encoder_tog_switch_value, hin]
  · simp [rotary_encoder_set_flags, hin]
  · intro hl
    simp [rotary_encoder_initialized_opt, List.getElem?_eq_none hl]

/-- Witness for C2 at the out-of-range handle 4 (capacity is 4). -/
theorem c2_invalid_handle_witness :
    rotary_encoder_get_knob_value st0 4 = 0 ∧
      rotary_encoder_get_switch_value st0 4 = false ∧
      rotary_encoder_check_event st0 4 = (st0, false) ∧
      rotary_encoder_check_alert st0 4 = (st0, false) ∧
      rotary_encoder_set_knob_value st0 4 7 = (st0, false) ∧
      rotary_encoder_inc_knob_value st0 4 = (st0, false) ∧
      rotary_encoder_dec_knob_value st0 4 = (st0, false) ∧
      rotary_encoder_tog_switch_value st0 4 = (st0, false) ∧
      rotary_encoder_set_flags st0 4 1 = (st0, false) ∧
      (st0.instances.length ≤ 4 → rotary_encoder_initialized_opt st0 4 = none) :=
  c2_invalid_handle st0 4 7 1 (by decide)

/-- C10: a successful init does not run the bounds policy: with bounds that
exclude zero (`0 < min` or `max < 0`) the freshly initialized knob is 0 and
`get_knob` reports 0, a value outside `[min, max]`; the first subsequent
knob mutation (an increment here) then forces the value into range. -/
theorem c10_init_skips_bounds (s : St) (hWF : s.WF) (h : Nat) (hh : h < numInstances)
    (mn mx : Int) (stp cw : Bool) (hout : 0 < mn ∨ mx < 0) :
    (rotary_encoder_init s h mn mx stp cw).2 = true ∧
      (getInst (rotary_encoder_init s h mn mx stp cw).1 h).knob_value = 0 ∧
      rotary_encoder_get_knob_value (rotary_encoder_init s h mn mx stp cw).1 h = 0 ∧
      ¬(mn ≤ (getInst (rotary_encoder_init s h mn mx stp cw).1 h).knob_value ∧
        (getInst (rotary_encoder_init s h mn mx stp cw).1 h).knob_value ≤ mx) ∧
      (mn ≤ mx →
        mn ≤ (getInst (rotary_encoder_inc_knob_value
            (rotary_encoder_init s h mn mx stp cw).1 h).1 h).knob_value ∧
          (getInst (rotary_encoder_inc_knob_value
            (rotary_encoder_init s h mn mx stp cw).1 h).1 h).knob_value ≤ mx) := by
  have hlen : h < s.instances.length := by rw [hWF]; exact hh
  have hG : getInst (rotary_encoder_init s h mn mx stp cw).1 h =
      { b_initialized := true, knob_value := 0, knob_max_value := mx,
        knob_min_value := mn, b_knob_allow_step_on := stp,
        b_knob_cw_rot_positive := cw, switch_value := false,
        b_event_occured := false, b_alert_occured := false } := by
    simp [rotary_encoder_init, hh, getInst_setInst_self' hlen]
  have hlen1 : h < (rotary_encoder_init s h mn mx stp cw).1.instances.length := by
    simp [rotary_encoder_init, hh, hlen]
  have hI : rotary_encoder_initialized (rotary_encoder_init s h mn mx stp cw).1 h = true := by
    rw [initialized_eq' hh hlen1, hG]
  refine ⟨?_, ?_, ?_, ?_, ?_⟩
  · simp [rotary_encoder_init, hh]
  · rw [hG]
  · simp [rotary_encoder_get_knob_value, hI, hG]
  · rw [hG]
    rintro ⟨hA, hB⟩
    simp at hA hB
    rcases hout with hc | hc <;> omega
  · intro hmm
    have h2 : getInst (rotary_encoder_inc_knob_value
        (rotary_encoder_init s h mn mx stp cw).1 h).1 h =
        inc_enc (getInst (rotary_encoder_init s h mn mx stp cw).1 h) := by
      simp [rotary_encoder_inc_knob_value, hI, getInst_setInst_self' hlen1]
    rw [h2, hG]
    have h3 := inc_enc_mem
      (e := { b_initialized := true, knob_value := 0, knob_max_value := mx,
              knob_min_value := mn, b_knob_allow_step_on := stp,
              b_knob_cw_rot_positive := cw, switch_value := false,
              b_event_occured := false, b_alert_occured := false })
      (by simpa using hmm)
    simpa using h3

/-- Witness for C10 at handle 2 with bounds 5..9. -/
theorem c10_init_skips_bounds_witness :
    (rotary_encoder_init st0 2 5 9 true true).2 = true ∧
      (getInst (rotary_encoder_init st0 2 5 9 true true).1 2).knob_value = 0 ∧
      rotary_encoder_get_knob_value (rotary_encoder_init st0 2 5 9 true true).1 2 = 0 ∧
      ¬((5 : Int) ≤ (getInst (rotary_encoder_init st0 2 5 9 true true).1 2).knob_value ∧
        (getInst (rotary_encoder_init st0 2 5 9 true true).1 2).knob_value ≤ 9) ∧
      ((5 : Int) ≤ 9 →
        (5 : Int) ≤ (getInst (rotary_encoder_inc_knob_value
            (rotary_encoder_init st0 2 5 9 true true).1 2).1 2).knob_value ∧
          (getInst (rotary_encoder_inc_knob_value
            (rotary_encoder_init st0 2 5 9 true true).1 2).1 2).knob_value ≤ 9) :=
  c10_init_skips_bounds st0 (by rfl) 2 (by decide) 5 9 true true (Or.inl (by decide))

/-- C8: every knob mutation on an initialized handle overwrites
`alert_pending` with the freshly computed `above || below` for that call;
in particular an in-bounds `set_knob` leaves it false whatever its previous
value. -/
theorem c8_alert_fresh (s : St) (hWF : s.WF) (h : Nat) (hh : h < numInstances) (v : Int)
    (hin : rotary_encoder_initialized s h = true) :
    ((getInst (rotary_encoder_set_knob_value s h v).1 h).b_alert_occured =
      (decide ((getInst s h).knob_max_value < v) ||
        decide (v < (getInst s h).knob_min_value))) ∧
      ((getInst (rotary_encoder_inc_knob_value s h).1 h).b_alert_occured =
        (decide ((getInst s h).knob_max_value < wrap16 ((getInst s h).knob_value + 1)) ||
          decide (wrap16 ((getInst s h).knob_value + 1) < (getInst s h).knob_min_value))) ∧
      ((getInst (rotary_encoder_dec_knob_value s h).1 h).b_alert_occured =
        (decide ((getInst s h).knob_max_value < wrap16 ((getInst s h).knob_value - 1)) ||
          decide (wrap16 ((getInst s h).knob_value - 1) < (getInst s h).knob_min_value))) ∧
      ((getInst s h).knob_min_value ≤ v → v ≤ (getInst s h).knob_max_value →
        (getInst (rotary_encoder_set_knob_value s h v).1 h).b_alert_occured = false) := by
  have hlen : h < s.instances.length := by rw [hWF]; exact hh
  have h1 : getInst (rotary_encoder_set_knob_value s h v).1 h = set_enc v (getInst s h) := by
    simp [rotary_encoder_set_knob_value, hin, getInst_setInst_self' hlen]
  have h2 : getInst (rotary_encoder_inc_knob_value s h).1 h = inc_enc (getInst s h) := by
    simp [rotary_encoder_inc_knob_value, hin, getInst_setInst_self' hlen]
  have h3 : getInst (rotary_encoder_dec_knob_value s h).1 h = dec_enc (getInst s h) := by
    simp [rotary_encoder_dec_knob_value, hin, getInst_setInst_self' hlen]
  refine ⟨?_, ?_, ?_, ?_⟩
  · rw [h1]; simp [set_enc, force_bounds_alert]
  · rw [h2]; simp [inc_enc, force_bounds_alert]
  · rw [h3]; simp [dec_enc, force_bounds_alert]
  · intro hA hB
    rw [h1]
    simp [set_enc, force_bounds_alert]
    omega

/-- Witness for C8 on handle 0 of the demo state with value 7. -/
theorem c8_alert_fresh_witness :
    ((getInst (rotary_encoder_set_knob_value demo_init_state 0 7).1 0).b_alert_occured =
      (decide ((getInst demo_init_state 0).knob_max_value < 7) ||
        decide ((7 : Int) < (getInst demo_init_state 0).knob_min_value))) ∧
      ((getInst (rotary_encoder_inc_knob_value demo_init_state 0).1 0).b_alert_occured =
        (decide ((getInst demo_init_state 0).knob_max_value <
            wrap16 ((getInst demo_init_state 0).knob_value + 1)) ||
          decide (wrap16 ((getInst demo_init_state 0).knob_value + 1) <
            (getInst demo_init_state 0).knob_min_value))) ∧
      ((getInst (rotary_encoder_dec_knob_value demo_init_state 0).1 0).b_alert_occured =
        (decide ((getInst demo_init_state 0).knob_max_value <
            wrap16 ((getInst demo_init_state 0).knob_value - 1)) ||
          decide (wrap16 ((getInst demo_init_state 0).knob_value - 1) <
            (getInst demo_init_state 0).knob_min_value))) ∧
      ((getInst demo_init_state 0).knob_min_value ≤ 7 →
        (7 : Int) ≤ (getInst demo_init_state 0).knob_max_value →
        (getInst (rotary_encoder_set_knob_value demo_init_state 0 7).1 0).b_alert_occured = false) :=
  c8_alert_fresh demo_init_state (by rfl) 0 (by decide) 7 (by decide)


/-- C3 (amended): the event latch is set by the drain path, not by the
direct mutators.  For an initialized handle with at least one pending bit,
after `run_pending()` the first `check_event` returns true and clears the
latch and an immediately following `check_event` returns false; the direct
mutators (`set_knob`, `increment_knob`, `decrement_knob`, `toggle_switch`)
leave the latch unchanged. -/
theorem c3_event_latch (s : St) (hWF : s.WF) (h : Nat) (hh : h < numInstances) (v : Int)
    (hin : rotary_encoder_initialized s h = true)
    (hbit : (flagBit s.cw_flags h || flagBit s.ccw_flags h || flagBit s.sw_flags h) = true) :
    (rotary_encoder_check_event (rotary_encoder_task s) h).2 = true ∧
      (rotary_encoder_check_event
        (rotary_encoder_check_event (rotary_encoder_task s) h).1 h).2 = false ∧
      (getInst (rotary_encoder_set_knob_value s h v).1 h).b_event_occured =
        (getInst s h).b_event_occured ∧
      (getInst (rotary_encoder_inc_knob_value s h).1 h).b_event_occured =
        (getInst s h).b_event_occured ∧
      (getInst (rotary_encoder_dec_knob_value s h).1 h).b_event_occured =
        (getInst s h).b_event_occured ∧
      (getInst (rotary_encoder_tog_switch_value s h).1 h).b_event_occured =
        (getInst s h).b_event_occured := by
  have hlen : h < s.instances.length := by rw [hWF]; exact hh
  have hbi : (getInst s h).b_initialized = true := by
    rwa [initialized_eq' hh hlen] at hin
  have hWFt : (rotary_encoder_task s).WF := task_WF hWF
  have hlent : h < (rotary_encoder_task s).instances.length := by rw [hWFt]; exact hh
  have htask := getInst_task hWF hh
  have hbit2 : (getInst (rotary_encoder_task s) h).b_initialized = true := by
    rw [htask]; simp [hbi]
  have hIt : rotary_encoder_initialized (rotary_encoder_task s) h = true := by
    rw [initialized_eq' hh hlent]; exact hbit2
  have hev : (getInst (rotary_encoder_task s) h).b_event_occured = true := by
    rw [htask]; exact taskStep_event_true hbit hbi
  refine ⟨?_, ?_, ?_, ?_, ?_, ?_⟩
  · simp [rotary_encoder_check_event, hIt, hev]
  · have hstep1 : (rotary_encoder_check_event (rotary_encoder_task s) h).1 =
        setInst (rotary_encoder_task s) h
          { getInst (rotary_encoder_task s) h with b_event_occured := false } := by
      simp [rotary_encoder_check_event, hIt]
    rw [hstep1]
    have hg2 : getInst (setInst (rotary_encoder_task s) h
        { getInst (rotary_encoder_task s) h with b_event_occured := false }) h =
        { getInst (rotary_encoder_task s) h with b_event_occured := false } :=
      getInst_setInst_self' hlent _
    have hlen2 : h < (setInst (rotary_encoder_task s) h
        { getInst (rotary_encoder_task s) h with b_event_occured := false }).instances.length := by
      simpa using hlent
    have hI2 : rotary_encoder_initialized (setInst (rotary_encoder_task s) h
        { getInst (rotary_encoder_task s) h with b_event_occured := false }) h = true := by
      rw [initialized_eq' hh hlen2, hg2]
      simpa using hbit2
    simp [rotary_encoder_check_event, hI2, hg2]
  · simp [rotary_encoder_set_knob_value, hin, getInst_setInst_self' hlen]
  · simp [rotary_encoder_inc_knob_value, hin, getInst_setInst_self' hlen]
  · simp [rotary_encoder_dec_knob_value, hin, getInst_setInst_self' hlen]
  · simp [rotary_encoder_tog_switch_value, hin, getInst_setInst_self' hlen]

/-- Witness for C3 (amended) on handle 0 with a pending clockwise bit. -/
theorem c3_event_latch_witness :
    (rotary_encoder_check_event (rotary_encoder_task demo_cw_state) 0).2 = true ∧
      (rotary_encoder_check_event
        (rotary_encoder_check_event (rotary_encoder_task demo_cw_state) 0).1 0).2 = false ∧
      (getInst (rotary_encoder_set_knob_value demo_cw_state 0 5).1 0).b_event_occured =
        (getInst demo_cw_state 0).b_event_occured ∧
      (getInst (rotary_encoder_inc_knob_value demo_cw_state 0).1 0).b_event_occured =
        (getInst demo_cw_state 0).b_event_occured ∧
      (getInst (rotary_encoder_dec_knob_value demo_cw_state 0).1 0).b_event_occured =
        (getInst demo_cw_state 0).b_event_occured ∧
      (getInst (rotary_encoder_tog_switch_value demo_cw_state 0).1 0).b_event_occured =
        (getInst demo_cw_state 0).b_event_occured :=
  c3_event_latch demo_cw_state (by rfl) 0 (by decide) 5 (by decide) (by decide)

/-- C4: for an initialized handle with ordered bounds, after `set_knob`,
`increment_knob`, `decrement_knob`, or a drain that applies a rotation
effect, `knob_min <= knob_value <= knob_max` holds.  The pre-state is
universally quantified, so this covers every position in every operation
sequence, under both edge policies and despite the 16-bit wraparound of the
increment/decrement. -/
theorem c4_bounds_invariant (s : St) (hWF : s.WF) (h : Nat) (hh : h < numInstances) (v : Int)
    (hin : rotary_encoder_initialized s h = true)
    (hmm : (getInst s h).knob_min_value ≤ (getInst s h).knob_max_value) :
    ((getInst s h).knob_min_value ≤
        (getInst (rotary_encoder_set_knob_value s h v).1 h).knob_value ∧
      (getInst (rotary_encoder_set_knob_value s h v).1 h).knob_value ≤
        (getInst s h).knob_max_value) ∧
      ((getInst s h).knob_min_value ≤
          (getInst (rotary_encoder_inc_knob_value s h).1 h).knob_value ∧
        (getInst (rotary_encoder_inc_knob_value s h).1 h).knob_value ≤
          (getInst s h).knob_max_value) ∧
      ((getInst s h).knob_min_value ≤
          (getInst (rotary_encoder_dec_knob_value s h).1 h).knob_value ∧
        (getInst (rotary_encoder_dec_knob_value s h).1 h).knob_value ≤
          (getInst s h).knob_max_value) ∧
      ((flagBit s.cw_flags h || flagBit s.ccw_flags h) = true →
        (getInst s h).knob_min_value ≤ (getInst (rotary_encoder_task s) h).knob_value ∧
          (getInst (rotary_encoder_task s) h).knob_value ≤ (getInst s h).knob_max_value) := by
  have hlen : h < s.instances.length := by rw [hWF]; exact hh
  have hbi : (getInst s h).b_initialized = true := by
    rwa [initialized_eq' hh hlen] at hin
  have h1 : getInst (rotary_encoder_set_knob_value s h v).1 h = set_enc v (getInst s h) := by
    simp [rotary_encoder_set_knob_value, hin, getInst_setInst_self' hlen]
  have h2 : getInst (rotary_encoder_inc_knob_value s h).1 h = inc_enc (getInst s h) := by
    simp [rotary_encoder_inc_knob_value, hin, getInst_setInst_self' hlen]
  have h3 : getInst (rotary_encoder_dec_knob_value s h).1 h = dec_enc (getInst s h) := by
    simp [rotary_encoder_dec_knob_value, hin, getInst_setInst_self' hlen]
  refine ⟨?_, ?_, ?_, ?_⟩
  · rw [h1]; exact set_enc_mem v hmm
  · rw [h2]; exact inc_enc_mem hmm
  · rw [h3]; exact dec_enc_mem hmm
  · intro hrot
    rw [getInst_task hWF hh]
    exact taskStep_knob_mem hrot hbi hmm

/-- Witness for C4 on handle 0 of the signalled demo state with value 42. -/
theorem c4_bounds_invariant_witness :
    ((getInst demo_cw_state 0).knob_min_value ≤
        (getInst (rotary_encoder_set_knob_value demo_cw_state 0 42).1 0).knob_value ∧
      (getInst (rotary_encoder_set_knob_value demo_cw_state 0 42).1 0).knob_value ≤
        (getInst demo_cw_state 0).knob_max_value) ∧
      ((getInst demo_cw_state 0).knob_min_value ≤
          (getInst (rotary_encoder_inc_knob_value demo_cw_state 0).1 0).knob_value ∧
        (getInst (rotary_encoder_inc_knob_value demo_cw_state 0).1 0).knob_value ≤
          (getInst demo_cw_state 0).knob_max_value) ∧
      ((getInst demo_cw_state 0).knob_min_value ≤
          (getInst (rotary_encoder_dec_knob_value demo_cw_state 0).1 0).knob_value ∧
        (getInst (rotary_encoder_dec_knob_value demo_cw_state 0).1 0).knob_value ≤
          (getInst demo_cw_state 0).knob_max_value) ∧
      ((flagBit demo_cw_state.cw_flags 0 || flagBit demo_cw_state.ccw_flags 0) = true →
        (getInst demo_cw_state 0).knob_min_value ≤
            (getInst (rotary_encoder_task demo_cw_state) 0).knob_value ∧
          (getInst (rotary_encoder_task demo_cw_state) 0).knob_value ≤
            (getInst demo_cw_state 0).knob_max_value) :=
  c4_bounds_invariant demo_cw_state (by rfl) 0 (by decide) 42 (by decide) (by decide)

/-- Iterating the clockwise producer signal n >= 1 times equals signalling
once: the OR into the flag word is idempotent. -/
theorem set_flags_cw_iterate {s : St} {h : Nat}
    (hin : rotary_encoder_initialized s h = true) :
    ∀ n : Nat, 1 ≤ n →
      (fun t => (rotary_encoder_set_flags t h ROTARY_ENCODER_FLAG_CW).1)^[n] s =
        (rotary_encoder_set_flags s h ROTARY_ENCODER_FLAG_CW).1
  | 0, h0 => by omega
  | 1, _ => by simp
  | n + 2, _ => by
    rw [Function.iterate_succ_apply',
      set_flags_cw_iterate hin (n + 1) (by omega)]
    exact set_flags_cw_idem hin

/-- C5: n >= 1 clockwise signals with no intervening drain coalesce into a
single pending bit (the OR is idempotent), and the next `run_pending()`
applies exactly one unit step: one increment when `cw_is_positive`, else
one decrement. -/
theorem c5_coalescing (s : St) (hWF : s.WF) (h : Nat) (hh : h < numInstances) (n : Nat)
    (hn : 1 ≤ n) (hin : rotary_encoder_initialized s h = true)
    (hccw : flagBit s.ccw_flags h = false) (hsw : flagBit s.sw_flags h = false) :
    (fun t => (rotary_encoder_set_flags t h ROTARY_ENCODER_FLAG_CW).1)^[n] s =
      (rotary_encoder_set_flags s h ROTARY_ENCODER_FLAG_CW).1 ∧
      getInst (rotary_encoder_task
          ((fun t => (rotary_encoder_set_flags t h ROTARY_ENCODER_FLAG_CW).1)^[n] s)) h =
        { (if (getInst s h).b_knob_cw_rot_positive then inc_enc (getInst s h)
           else dec_enc (getInst s h)) with
          b_event_occured := true } := by
  have hlen : h < s.instances.length := by rw [hWF]; exact hh
  have hbi : (getInst s h).b_initialized = true := by
    rwa [initialized_eq' hh hlen] at hin
  have hit := set_flags_cw_iterate hin n hn
  refine ⟨hit, ?_⟩
  rw [hit, set_flags_cw hin]
  have hWF2 : St.WF { s with cw_flags := s.cw_flags ||| (1 <<< h) } := hWF
  rw [getInst_task hWF2 hh]
  cases hp : (getInst s h).b_knob_cw_rot_positive <;>
    simp [taskStep, hbi, hp, flagBit_or_self, hccw, hsw]

/-- Witness for C5 on handle 0 of the demo state with n = 5. -/
theorem c5_coalescing_witness :
    (fun t => (rotary_encoder_set_flags t 0 ROTARY_ENCODER_FLAG_CW).1)^[5] demo_init_state =
      (rotary_encoder_set_flags demo_init_state 0 ROTARY_ENCODER_FLAG_CW).1 ∧
      getInst (rotary_encoder_task
          ((fun t => (rotary_encoder_set_flags t 0 ROTARY_ENCODER_FLAG_CW).1)^[5]
            demo_init_state)) 0 =
        { (if (getInst demo_init_state 0).b_knob_cw_rot_positive then
            inc_enc (getInst demo_init_state 0)
           else dec_enc (getInst demo_init_state 0)) with
          b_event_occured := true } :=
  c5_coalescing demo_init_state (by rfl) 0 (by decide) 5 (by decide) (by decide)
    (by decide) (by decide)


/-- Wrap policy, value above the maximum only: the value lands on the
minimum. -/
theorem force_bounds_wrap_above {e : Encoder} (hstep : e.b_knob_allow_step_on = false)
    (habove : e.knob_max_value < e.knob_value)
    (hnbelow : ¬e.knob_value < e.knob_min_value) :
    (force_bounds e).knob_value = e.knob_min_value := by
  simp [force_bounds, hstep, habove, hnbelow]

/-- Wrap policy, value below the minimum only: the value lands on the
maximum. -/
theorem force_bounds_wrap_below {e : Encoder} (hstep : e.b_knob_allow_step_on = false)
    (hbelow : e.knob_value < e.knob_min_value)
    (hnabove : ¬e.knob_max_value < e.knob_value) :
    (force_bounds e).knob_value = e.knob_max_value := by
  simp [force_bounds, hstep, hbelow, hnabove]

/-- C6 (amended): with wrap policy and ordered int16 bounds, increment from
`max` yields `min` and decrement from `min` yields `max` provided the ±1
does not overflow the 16-bit value (`max < 32767`, resp. `-32768 < min`) —
at the representable extremes the wrapped value trips the opposite bound
check and lands back on the same bound.  `set_knob` strictly beyond a bound
lands exactly on the single-step wrap target of that bound,
non-iteratively. -/
theorem c6_wrap_policy (s : St) (hWF : s.WF) (h : Nat) (hh : h < numInstances) (v : Int)
    (hin : rotary_encoder_initialized s h = true)
    (hstep : (getInst s h).b_knob_allow_step_on = false)
    (hmm : (getInst s h).knob_min_value ≤ (getInst s h).knob_max_value)
    (hlo : -32768 ≤ (getInst s h).knob_min_value)
    (hhi : (getInst s h).knob_max_value ≤ 32767) :
    ((getInst s h).knob_value = (getInst s h).knob_max_value →
        (getInst s h).knob_max_value < 32767 →
        (getInst (rotary_encoder_inc_knob_value s h).1 h).knob_value =
          (getInst s h).knob_min_value) ∧
      ((getInst s h).knob_value = (getInst s h).knob_min_value →
        -32768 < (getInst s h).knob_min_value →
        (getInst (rotary_encoder_dec_knob_value s h).1 h).knob_value =
          (getInst s h).knob_max_value) ∧
      ((getInst s h).knob_max_value < v →
        (getInst (rotary_encoder_set_knob_value s h v).1 h).knob_value =
          (getInst s h).knob_min_value) ∧
      (v < (getInst s h).knob_min_value →
        (getInst (rotary_encoder_set_knob_value s h v).1 h).knob_value =
          (getInst s h).knob_max_value) := by
  have hlen : h < s.instances.length := by rw [hWF]; exact hh
  have h1 : getInst (rotary_encoder_set_knob_value s h v).1 h = set_enc v (getInst s h) := by
    simp [rotary_encoder_set_knob_value, hin, getInst_setInst_self' hlen]
  have h2 : getInst (rotary_encoder_inc_knob_value s h).1 h = inc_enc (getInst s h) := by
    simp [rotary_encoder_inc_knob_value, hin, getInst_setInst_self' hlen]
  have h3 : getInst (rotary_encoder_dec_knob_value s h).1 h = dec_enc (getInst s h) := by
    simp [rotary_encoder_dec_knob_value, hin, getInst_setInst_self' hlen]
  refine ⟨?_, ?_, ?_, ?_⟩
  · intro hv hsmall
    rw [h2]
    have hw : wrap16 ((getInst s h).knob_value + 1) = (getInst s h).knob_value + 1 :=
      wrap16_eq_self (by omega) (by omega)
    simp only [inc_enc, hw]
    exact force_bounds_wrap_above hstep (by simp; omega) (by simp; omega)
  · intro hv hbig
    rw [h3]
    have hw : wrap16 ((getInst s h).knob_value - 1) = (getInst s h).knob_value - 1 :=
      wrap16_eq_self (by omega) (by omega)
    simp only [dec_enc, hw]
    exact force_bounds_wrap_below hstep (by simp; omega) (by simp; omega)
  · intro hv
    rw [h1]
    simp only [set_enc]
    exact force_bounds_wrap_above hstep (by simp; omega) (by simp; omega)
  · intro hv
    rw [h1]
    simp only [set_enc]
    exact force_bounds_wrap_below hstep (by simp; omega) (by simp; omega)

/-- Witness for C6 (amended) on a wrap-policy instance with bounds 0..10. -/
theorem c6_wrap_policy_witness :
    ((getInst (rotary_encoder_init st0 1 0 10 false true).1 1).knob_value =
        (getInst (rotary_encoder_init st0 1 0 10 false true).1 1).knob_max_value →
        (getInst (rotary_encoder_init st0 1 0 10 false true).1 1).knob_max_value < 32767 →
        (getInst (rotary_encoder_inc_knob_value
            (rotary_encoder_init st0 1 0 10 false true).1 1).1 1).knob_value =
          (getInst (rotary_encoder_init st0 1 0 10 false true).1 1).knob_min_value) ∧
      ((getInst (rotary_encoder_init st0 1 0 10 false true).1 1).knob_value =
          (getInst (rotary_encoder_init st0 1 0 10 false true).1 1).knob_min_value →
        -32768 < (getInst (rotary_encoder_init st0 1 0 10 false true).1 1).knob_min_value →
        (getInst (rotary_encoder_dec_knob_value
            (rotary_encoder_init st0 1 0 10 false true).1 1).1 1).knob_value =
          (getInst (rotary_encoder_init st0 1 0 10 false true).1 1).knob_max_value) ∧
      ((getInst (rotary_encoder_init st0 1 0 10 false true).1 1).knob_max_value < 25 →
        (getInst (rotary_encoder_set_knob_value
            (rotary_encoder_init st0 1 0 10 false true).1 1 25).1 1).knob_value =
          (getInst (rotary_encoder_init st0 1 0 10 false true).1 1).knob_min_value) ∧
      ((25 : Int) < (getInst (rotary_encoder_init st0 1 0 10 false true).1 1).knob_min_value →
        (getInst (rotary_encoder_set_knob_value
            (rotary_encoder_init st0 1 0 10 false true).1 1 25).1 1).knob_value =
          (getInst (rotary_encoder_init st0 1 0 10 false true).1 1).knob_max_value) :=
  c6_wrap_policy (rotary_encoder_init st0 1 0 10 false true).1 (by rfl) 1 (by decide) 25
    (by decide) (by decide) (by decide) (by decide) (by decide)

/-- C7: when both the cw and the ccw bit are pending for the same
initialized handle in one drain (and the switch bit is not), both resolved
directional effects are applied, the cw-resolved one first and the
ccw-resolved one second: the record ends as the ccw effect applied to the
result of the cw effect, with the event latch set. -/
theorem c7_double_edge (s : St) (hWF : s.WF) (h : Nat) (hh : h < numInstances)
    (hin : rotary_encoder_initialized s h = true)
    (hcw : flagBit s.cw_flags h = true) (hccw : flagBit s.ccw_flags h = true)
    (hsw : flagBit s.sw_flags h = false) :
    getInst (rotary_encoder_task s) h =
      { (if (getInst s h).b_knob_cw_rot_positive then dec_enc (inc_enc (getInst s h))
         else inc_enc (dec_enc (getInst s h))) with
        b_event_occured := true } := by
  have hlen : h < s.instances.length := by rw [hWF]; exact hh
  have hbi : (getInst s h).b_initialized = true := by
    rwa [initialized_eq' hh hlen] at hin
  rw [getInst_task hWF hh]
  cases hp : (getInst s h).b_knob_cw_rot_positive <;>
    simp [taskStep, hcw, hccw, hsw, hbi, hp]

/-- Witness for C7 on handle 0 with both rotation bits pending. -/
theorem c7_double_edge_witness :
    getInst (rotary_encoder_task demo_both_state) 0 =
      { (if (getInst demo_both_state 0).b_knob_cw_rot_positive then
          dec_enc (inc_enc (getInst demo_both_state 0))
         else inc_enc (dec_enc (getInst demo_both_state 0))) with
        b_event_occured := true } :=
  c7_double_edge demo_both_state (by rfl) 0 (by decide) (by decide) (by decide)
    (by decide) (by decide)

/-- C9 (amended): exactly the signals landing after the snapshot read of
their flag word and no later than that word's blind zeroing are lost; a
signal completing before the read is processed by the drain, and one
arriving after the zeroing survives into the next drain. -/
theorem c9_loss_window (p : Nat) (k : SigKind) (h : Nat) (f0 : Flags)
    (hp : p ≤ 6) (hbit : flagBit (f0.word k) h = false) :
    signalLost p k h f0 = decide (readIdx k < p ∧ p ≤ clearIdx k) := by
  cases k <;> simp only [Flags.word] at hbit <;> interval_cases p <;>
    simp [signalLost, drainWithSignal, signalFlags, Flags.word, Snapshot.word,
      readIdx, clearIdx, flagBit_or_self, flagBit_shiftLeft_self, hbit]

/-- Witness for C9 (amended): a counter-clockwise signal landing between
the ccw read and the ccw zeroing (position 4) is lost. -/
theorem c9_loss_window_witness :
    signalLost 4 SigKind.rotCCW 2 ⟨0, 0, 0⟩ =
      decide (readIdx SigKind.rotCCW < 4 ∧ 4 ≤ clearIdx SigKind.rotCCW) :=
  c9_loss_window 4 SigKind.rotCCW 2 ⟨0, 0, 0⟩ (by decide) (by decide)

end RotaryEncoders
